import Mathlib

/-!
Verification development for the land-grab-demo client core: a shallow
embedding of the cell-state store (`src/api/landApi.js`), the domain-event
and pointer-interaction pipeline (`src/interactions/pointerEvents.js`,
`src/platform/web/input.js`), the geometry bridge and the visible-grid
ring computation (`HexGrid`), together with theorems about the specified
properties.

Modelling conventions:
* machine numbers (`Date.now()` timestamps) are `Nat` arguments threaded
  through the operations; JS floating-point arithmetic on coordinates is
  modelled over `ℝ`;
* a JS `Map` keyed by cell-id strings is modelled as `String → Option Cell`
  (value semantics; the store itself never mutates a record in place, it
  always replaces records via object spread, so value semantics coincides
  with the source for the store operations);
* JS reference semantics (object identity of cell records and `Map`
  containers) is modelled separately by an explicit heap, used for the
  snapshot-aliasing property;
* JS truthiness of a `string | null` value (`null` and `""` are falsy) is
  modelled by explicit matches; the external H3 index (`h3-js`) is modelled
  as an abstract function argument, whose returned cell ids are the
  (always nonempty) H3 index strings;
* the event bus fan-out (`emitEvent`) is modelled by the ordered list of
  events a call emits.
-/

namespace LandGrab

/-- Cell visual states, from `src/core/domain/cell.js` (`CellState`). -/
inductive CellState where
  | DEFAULT
  | HOVERED
  | SELECTED
  | OWNED
  | FOREIGN
deriving DecidableEq

/-- Cell record shape, from `src/core/domain/cell.js` (`createCell`). -/
structure Cell where
  id : String
  state : CellState
  ownerId : Option String
  structures : List String
  createdAt : Nat
deriving DecidableEq

/-- createCell(id) as called by the store (no options passed, so every
field takes its default); `Date.now()` is the `now` argument. -/
def createCell (id : String) (now : Nat) : Cell :=
  { id := id
  , state := CellState.DEFAULT
  , ownerId := none
  , structures := []
  , createdAt := now }

/-- The store's `cells` JS `Map`, modelled with value semantics. -/
abbrev CellMap : Type := String → Option Cell

/-- `cells.set(k, v)`. -/
def mapSet (m : CellMap) (k : String) (v : Cell) : CellMap :=
  fun q => if q = k then some v else m q

/-- `cells.has(k)`. -/
def mapHas (m : CellMap) (k : String) : Bool :=
  (m k).isSome

/-- The guarded record-state replacement pattern of `landApi.js`:
`const c = cells.get(k); cells.set(k, { ...c, state: s })`.  At every use
site the source either guards with `cells.has(k)` or has already ensured
the key is present, so the `none` branch (where JS would spread
`undefined`) is unreachable there and is modelled as a no-op. -/
def setStateAt (m : CellMap) (k : String) (s : CellState) : CellMap :=
  match m k with
  | some c => mapSet m k { c with state := s }
  | none => m

/-- Store state: module-level `state` object of `src/api/landApi.js`. -/
structure StoreState where
  selectedCellId : Option String
  hoveredCellId : Option String
  cells : CellMap

/-- The module-initial store state (`selectedCellId: null`,
`hoveredCellId: null`, `cells: new Map()`). -/
def initialState : StoreState :=
  { selectedCellId := none, hoveredCellId := none, cells := fun _ => none }

/-- Result object returned by the store operations.  `selectCell` returns
`{ success, cellId, cell }`; `clearSelection` and `setHoveredCell` return
objects without a `cell` field, modelled as `cell := none`. -/
structure ApiResult where
  success : Bool
  cellId : Option String
  cell : Option Cell

/-- The "Ensure cell exists in our local cache" block of `selectCell` and
of `setHoveredCell`: `if (!cells.has(cellId)) cells.set(cellId, createCell(cellId))`. -/
def ensureCell (cells : CellMap) (cellId : String) (now : Nat) : CellMap :=
  if mapHas cells cellId then cells
  else mapSet cells cellId (createCell cellId now)

/-- The "Update previous selection state" block of `selectCell` (and the
demotion in `clearSelection`): the guard `state.selectedCellId && cells.has(...)`
uses JS truthiness, so a `null` or empty-string previous id is skipped. -/
def demotePrevSelection (cells : CellMap) (selectedCellId : Option String) : CellMap :=
  match selectedCellId with
  | some prev => if prev ≠ "" then setStateAt cells prev CellState.DEFAULT else cells
  | none => cells

/-- `selectCell(cellId)` from `src/api/landApi.js`.  Returns the new store
state, the number of `notifySubscribers()` calls performed, and the result
object. -/
def applySelectCell (st : StoreState) (cellId : String) (now : Nat) :
    StoreState × Nat × ApiResult :=
  let cells3 :=
    setStateAt (demotePrevSelection (ensureCell st.cells cellId now) st.selectedCellId)
      cellId CellState.SELECTED
  ({ selectedCellId := some cellId, hoveredCellId := st.hoveredCellId, cells := cells3 },
   1,
   { success := true, cellId := some cellId, cell := cells3 cellId })

/-- `clearSelection()` from `src/api/landApi.js`. -/
def applyClearSelection (st : StoreState) : StoreState × Nat × ApiResult :=
  ({ selectedCellId := none, hoveredCellId := st.hoveredCellId
   , cells := demotePrevSelection st.cells st.selectedCellId },
   1,
   { success := true, cellId := none, cell := none })

/-- The "Clear previous hover state" block of `setHoveredCell`: demote the
truthy, present previous hover only when its stored state is exactly
`HOVERED` (never a `SELECTED` cell). -/
def clearPrevHover (cells : CellMap) (hoveredCellId : Option String) : CellMap :=
  match hoveredCellId with
  | some prev =>
    if prev ≠ "" then
      match cells prev with
      | some prevCell =>
        if prevCell.state = CellState.HOVERED then
          mapSet cells prev { prevCell with state := CellState.DEFAULT }
        else cells
      | none => cells
    else cells
  | none => cells

/-- The "Set new hover state" block of `setHoveredCell`: for a truthy new
id, create the record when absent and promote it to `HOVERED` unless its
state is `SELECTED`. -/
def setNewHover (cells : CellMap) (cellId : Option String) (now : Nat) : CellMap :=
  match cellId with
  | some cid =>
    if cid ≠ "" then
      match ensureCell cells cid now cid with
      | some cell =>
        if cell.state ≠ CellState.SELECTED then
          mapSet (ensureCell cells cid now) cid { cell with state := CellState.HOVERED }
        else ensureCell cells cid now
      | none => ensureCell cells cid now
    else cells
  | none => cells

/-- `setHoveredCell(cellId)` from `src/api/landApi.js`.  Early no-op return
when `state.hoveredCellId === cellId`; otherwise clear the previous hover,
set the new hover state, and notify subscribers once. -/
def applySetHoveredCell (st : StoreState) (cellId : Option String) (now : Nat) :
    StoreState × Nat × ApiResult :=
  if st.hoveredCellId = cellId then
    (st, 0, { success := true, cellId := cellId, cell := none })
  else
    ({ selectedCellId := st.selectedCellId, hoveredCellId := cellId
     , cells := setNewHover (clearPrevHover st.cells st.hoveredCellId) cellId now },
     1,
     { success := true, cellId := cellId, cell := none })

/-- `getCellColor(cellId, cells, selectedCellId, hoveredCellId)` from the
`HexGrid` component.  The JS `cellId === selectedCellId` comparison of a
string against `string | null` holds exactly when the option carries the
same string. -/
def getCellColor (cellId : String) (cells : CellMap)
    (selectedCellId hoveredCellId : Option String) : String :=
  if some cellId = selectedCellId then "#00ff88"
  else if some cellId = hoveredCellId then "#44aaff"
  else
    match cells cellId with
    | some cell =>
      match cell.state with
      | CellState.SELECTED => "#00ff88"
      | CellState.HOVERED => "#44aaff"
      | CellState.OWNED => "#ffaa00"
      | _ => "#ffffff"
    | none => "#ffffff"

/-- States reachable from the module-initial store state by any sequence of
`selectCell`, `clearSelection` and `setHoveredCell` calls. -/
inductive Reachable : StoreState → Prop where
  | init : Reachable initialState
  | select (st : StoreState) (cellId : String) (now : Nat) :
      Reachable st → Reachable (applySelectCell st cellId now).1
  | clear (st : StoreState) :
      Reachable st → Reachable (applyClearSelection st).1
  | hover (st : StoreState) (cellId : Option String) (now : Nat) :
      Reachable st → Reachable (applySetHoveredCell st cellId now).1

/-! ## Domain events and the interaction pipeline -/

/-- Domain event, from `src/core/events/index.js` (`createEvent`).  The
payload is modelled by its `cellId` field (the only payload field the
specified properties mention); `Date.now()` is the `timestamp` argument. -/
structure DomainEvent where
  type : String
  cellId : Option String
  timestamp : Nat
deriving DecidableEq

/-- `cellSelected(cellId, metadata)`; the payload's `cellId` field. -/
def cellSelected (cellId : String) (now : Nat) : DomainEvent :=
  { type := "CELL_SELECTED", cellId := some cellId, timestamp := now }

/-- `cellHovered(cellId)`. -/
def cellHovered (cellId : String) (now : Nat) : DomainEvent :=
  { type := "CELL_HOVERED", cellId := some cellId, timestamp := now }

/-- `cellUnhovered(cellId)`; in `handlePointerAction` the argument is
`context.previousCellId`, which may be absent, hence `Option String`. -/
def cellUnhovered (cellId : Option String) (now : Nat) : DomainEvent :=
  { type := "CELL_UNHOVERED", cellId := cellId, timestamp := now }

/-- `handleCellSelect(cellId, metadata)` from
`src/interactions/pointerEvents.js`: emit `CELL_SELECTED`, then call
`selectCell`.  Returns the new store state and the ordered list of events
emitted on the bus. -/
def handleCellSelect (cellId : String) (st : StoreState) (now : Nat) :
    StoreState × List DomainEvent :=
  ((applySelectCell st cellId now).1, [cellSelected cellId now])

/-- `handleCellHoverEnter(cellId)`: emit `CELL_HOVERED`, then call
`setHoveredCell(cellId)`. -/
def handleCellHoverEnter (cellId : String) (st : StoreState) (now : Nat) :
    StoreState × List DomainEvent :=
  ((applySetHoveredCell st (some cellId) now).1, [cellHovered cellId now])

/-- `handleCellHoverExit(cellId)`: emit `CELL_UNHOVERED`, then call
`setHoveredCell(null)`. -/
def handleCellHoverExit (cellId : Option String) (st : StoreState) (now : Nat) :
    StoreState × List DomainEvent :=
  ((applySetHoveredCell st none now).1, [cellUnhovered cellId now])

/-- `handlePointerAction(actionType, cellId, context)` from
`src/interactions/pointerEvents.js`.  `contextPrev` is
`context.previousCellId`.  The `if (!cellId)` guard uses JS truthiness
(`null` and `""` are falsy); the unknown-action default only logs. -/
def handlePointerAction (actionType : String) :
    Option String → Option String → StoreState → Nat → StoreState × List DomainEvent
  | none, contextPrev, st, now =>
    if actionType = "hover-exit" then handleCellHoverExit contextPrev st now
    else (st, [])
  | some cid, contextPrev, st, now =>
    if cid = "" then
      if actionType = "hover-exit" then handleCellHoverExit contextPrev st now
      else (st, [])
    else if actionType = "select" then handleCellSelect cid st now
    else if actionType = "hover-enter" then handleCellHoverEnter cid st now
    else if actionType = "hover-exit" then handleCellHoverExit (some cid) st now
    else (st, [])

/-! ## Geometry bridge (`HexGrid`, floating point modelled over `ℝ`) -/

/-- A `THREE.Vector3`. -/
structure Vec3 where
  x : ℝ
  y : ℝ
  z : ℝ

/-- `latLngToVector3(lat, lng, radius)` from the `HexGrid` component:
latitude measured from the pole, longitude offset by 180°. -/
noncomputable def latLngToVector3 (lat lng radius : ℝ) : Vec3 :=
  let phi := (90 - lat) * (Real.pi / 180)
  let theta := (lng + 180) * (Real.pi / 180)
  { x := -radius * Real.sin phi * Real.cos theta
  , y := radius * Real.cos phi
  , z := radius * Real.sin phi * Real.sin theta }

/-- `THREE.Vector3.length()`. -/
noncomputable def vecLength (p : Vec3) : ℝ :=
  Real.sqrt (p.x * p.x + p.y * p.y + p.z * p.z)

/-- `THREE.Vector3.normalize()`, which divides by `length() || 1`, so the
zero vector is left unchanged. -/
noncomputable def vecNormalize (p : Vec3) : Vec3 :=
  if vecLength p = 0 then p
  else { x := p.x / vecLength p, y := p.y / vecLength p, z := p.z / vecLength p }

/-- `Math.atan2(y, x)` modelled over `ℝ` as the argument of the complex
number `x + y·i`, with range `(-π, π]`. -/
noncomputable def atan2 (y x : ℝ) : ℝ :=
  Complex.arg (x + y * Complex.I)

/-- `vector3ToLatLng(point, radius)` from the `HexGrid` component: the
point is normalized onto the unit sphere (the radius argument is unused in
the source), the projection is inverted, and the longitude is wrapped by
adding 360 when it falls below -180. -/
noncomputable def vector3ToLatLng (point : Vec3) (_radius : ℝ) : ℝ × ℝ :=
  let n := vecNormalize point
  let lat := 90 - Real.arccos n.y * (180 / Real.pi)
  let lng := atan2 n.z (-n.x) * (180 / Real.pi) - 180
  (lat, if lng < -180 then lng + 360 else lng)

/-! ## Visible-grid ring computation (`HexGrid.hexCells`) -/

/-- `MIN_GRID_RINGS` from the `HexGrid` component. -/
def MIN_GRID_RINGS : ℤ := 8

/-- `MAX_GRID_RINGS` from the `HexGrid` component. -/
def MAX_GRID_RINGS : ℤ := 140

/-- `degToRad(deg)` from the `HexGrid` component. -/
noncomputable def degToRad (deg : ℝ) : ℝ :=
  deg * Real.pi / 180

/-- `THREE.MathUtils.clamp(value, min, max) = Math.max(min, Math.min(max, value))`. -/
def clampInt (value lo hi : ℤ) : ℤ :=
  max lo (min hi value)

/-- The `rings` computation of `HexGrid.hexCells`, as a function of the
estimated angular ring step (the step itself comes from the external H3
index via `estimateRingStepRad`, with a `degToRad(1)` fallback when no
neighbor exists): `clamp(ceil((π/2 + 8°) / max(step, 1e-6)), MIN, MAX)`. -/
noncomputable def hexGridRings (ringStep : ℝ) : ℤ :=
  clampInt ⌈(Real.pi / 2 + degToRad 8) / max ringStep 1e-6⌉ MIN_GRID_RINGS MAX_GRID_RINGS

/-! ## Spatial index resolutions and picking -/

/-- `DEFAULT_RESOLUTION` from `src/core/h3/index.js`: the fine resolution
for selectable land cells. -/
def DEFAULT_RESOLUTION : Nat := 12

/-- `VISIBLE_GRID_RESOLUTION` from `src/core/h3/index.js`: the coarser
resolution for the rendered overlay grid. -/
def VISIBLE_GRID_RESOLUTION : Nat := 4

/-- `getCellIdFromPoint(point)` from the `HexGrid` component: convert the
3D point to geographic coordinates, then resolve a cell id at
`VISIBLE_GRID_RESOLUTION`.  The external `h3-js` `latLngToCell` is the
abstract argument `idx : lat → lng → resolution → cell id`; `radius` is
the globe radius used for `vector3ToLatLng` (which ignores it). -/
noncomputable def getCellIdFromPoint (idx : ℝ → ℝ → Nat → String)
    (radius : ℝ) (point : Vec3) : String :=
  idx (vector3ToLatLng point radius).1 (vector3ToLatLng point radius).2
    VISIBLE_GRID_RESOLUTION

/-! ## Platform input layer (`src/platform/web/input.js`) -/

/-- The module-level hover memo `currentHoveredCellId`. -/
structure InputState where
  currentHoveredCellId : Option String
deriving DecidableEq

/-- `onPointerDown(event)`: resolve the cell id from the intersection
point; if truthy, dispatch a `select` pointer action.  Returns the new
input state, the new store state, and the events emitted. -/
noncomputable def onPointerDown (idx : ℝ → ℝ → Nat → String) (radius : ℝ)
    (point : Vec3) (ist : InputState) (st : StoreState) (now : Nat) :
    InputState × StoreState × List DomainEvent :=
  let cellId := getCellIdFromPoint idx radius point
  if cellId ≠ "" then
    let r := handlePointerAction "select" (some cellId) none st now
    (ist, r.1, r.2)
  else (ist, st, [])

/-- `onPointerMove(event)`: resolve the cell id; when it differs from the
hover memo, dispatch `hover-exit` for the truthy previous memo and then
`hover-enter` for the truthy new id, and update the memo; otherwise do
nothing. -/
noncomputable def onPointerMove (idx : ℝ → ℝ → Nat → String) (radius : ℝ)
    (point : Vec3) (ist : InputState) (st : StoreState) (now : Nat) :
    InputState × StoreState × List DomainEvent :=
  let cellId := getCellIdFromPoint idx radius point
  if some cellId ≠ ist.currentHoveredCellId then
    let r1 :=
      match ist.currentHoveredCellId with
      | some prev =>
        if prev ≠ "" then
          handlePointerAction "hover-exit" none (some prev) st now
        else (st, [])
      | none => (st, [])
    let r2 :=
      if cellId ≠ "" then handlePointerAction "hover-enter" (some cellId) none r1.1 now
      else (r1.1, [])
    ({ currentHoveredCellId := some cellId }, r2.1, r1.2 ++ r2.2)
  else (ist, st, [])

/-- `onPointerLeave()`: when the hover memo is truthy, dispatch
`hover-exit` with the previous id and clear the memo. -/
def onPointerLeave (ist : InputState) (st : StoreState) (now : Nat) :
    InputState × StoreState × List DomainEvent :=
  match ist.currentHoveredCellId with
  | some prev =>
    if prev ≠ "" then
      let r := handlePointerAction "hover-exit" none (some prev) st now
      ({ currentHoveredCellId := none }, r.1, r.2)
    else (ist, st, [])
  | none => (ist, st, [])

/-! ## Reference-semantics model of the store (for the snapshot claim)

JS objects live on a heap and are passed by reference.  `getState()`
returns `new Map(state.cells)`: a freshly allocated `Map` container whose
entries point at the same cell record objects as the internal map.  To
settle the aliasing claim we re-embed `selectCell` and `getState` over an
explicit heap of record objects and map containers, addressed by `Nat`.
Record replacement in the store uses object spread, which allocates a new
record object, exactly as in the source. -/

/-- Association list backing a JS `Map` from cell id to record address:
`set` replaces in place (preserving insertion order) or appends. -/
def alSet : List (String × Nat) → String → Nat → List (String × Nat)
  | [], k, v => [(k, v)]
  | (k', v') :: rest, k, v =>
    if k' = k then (k, v) :: rest else (k', v') :: alSet rest k v

/-- `Map.get` on the backing association list. -/
def alGet : List (String × Nat) → String → Option Nat
  | [], _ => none
  | (k', v') :: rest, k => if k' = k then some v' else alGet rest k

/-- `Map.delete` on the backing association list. -/
def alDelete : List (String × Nat) → String → List (String × Nat)
  | [], _ => []
  | (k', v') :: rest, k => if k' = k then rest else (k', v') :: alDelete rest k

/-- Heap of JS objects: cell records and `Map` containers, addressed by
allocation order. -/
structure Heap where
  recs : Nat → Option Cell
  maps : Nat → Option (List (String × Nat))
  next : Nat

/-- Allocate a fresh cell record object. -/
def heapAllocRec (h : Heap) (c : Cell) : Heap × Nat :=
  ({ recs := fun a => if a = h.next then some c else h.recs a
   , maps := h.maps
   , next := h.next + 1 }, h.next)

/-- Allocate a fresh `Map` container with the given entries. -/
def heapAllocMap (h : Heap) (es : List (String × Nat)) : Heap × Nat :=
  ({ recs := h.recs
   , maps := fun a => if a = h.next then some es else h.maps a
   , next := h.next + 1 }, h.next)

/-- Entries of the `Map` container at an address (empty if dangling). -/
def heapMapEntries (h : Heap) (mAddr : Nat) : List (String × Nat) :=
  (h.maps mAddr).getD []

/-- `map.get(k)` through the heap. -/
def heapMapGet (h : Heap) (mAddr : Nat) (k : String) : Option Nat :=
  alGet (heapMapEntries h mAddr) k

/-- `map.has(k)` through the heap. -/
def heapMapHas (h : Heap) (mAddr : Nat) (k : String) : Bool :=
  (heapMapGet h mAddr k).isSome

/-- `map.set(k, addr)`: in-place mutation of the container object. -/
def heapMapSet (h : Heap) (mAddr : Nat) (k : String) (v : Nat) : Heap :=
  { recs := h.recs
  , maps := fun a => if a = mAddr then some (alSet (heapMapEntries h mAddr) k v) else h.maps a
  , next := h.next }

/-- `map.delete(k)`: in-place mutation of the container object. -/
def heapMapDelete (h : Heap) (mAddr : Nat) (k : String) : Heap :=
  { recs := h.recs
  , maps := fun a => if a = mAddr then some (alDelete (heapMapEntries h mAddr) k) else h.maps a
  , next := h.next }

/-- In-place mutation of the record object at an address (what a caller
does when it assigns to a field of a record obtained from a snapshot). -/
def heapRecWrite (h : Heap) (a : Nat) (c : Cell) : Heap :=
  { recs := fun a' => if a' = a then some c else h.recs a'
  , maps := h.maps
  , next := h.next }

/-- The store's module-level globals under reference semantics:
`cellsAddr` is the address of the internal `cells` map container.  The
same shape describes the object returned by `getState()`. -/
structure HStore where
  selectedCellId : Option String
  hoveredCellId : Option String
  cellsAddr : Nat
deriving DecidableEq

/-- The record the store's internal state associates to a cell id: the
internal map entry dereferenced through the heap. -/
def storeCellAt (hs : HStore) (h : Heap) (k : String) : Option Cell :=
  (heapMapGet h hs.cellsAddr k).bind h.recs

/-- `selectCell(cellId)` under reference semantics: identical control flow
to `applySelectCell`, but each `{ ...cell, state }` spread allocates a new
record object and `map.set` mutates the internal container. -/
def heapSelectCell (hs : HStore) (h : Heap) (cellId : String) (now : Nat) :
    HStore × Heap :=
  let h1 :=
    if heapMapHas h hs.cellsAddr cellId then h
    else
      let r := heapAllocRec h (createCell cellId now)
      heapMapSet r.1 hs.cellsAddr cellId r.2
  let h2 :=
    match hs.selectedCellId with
    | some prev =>
      if prev ≠ "" then
        match (heapMapGet h1 hs.cellsAddr prev).bind h1.recs with
        | some prevCell =>
          let r := heapAllocRec h1 { prevCell with state := CellState.DEFAULT }
          heapMapSet r.1 hs.cellsAddr prev r.2
        | none => h1
      else h1
    | none => h1
  let h3 :=
    match (heapMapGet h2 hs.cellsAddr cellId).bind h2.recs with
    | some cell =>
      let r := heapAllocRec h2 { cell with state := CellState.SELECTED }
      heapMapSet r.1 hs.cellsAddr cellId r.2
    | none => h2
  ({ selectedCellId := some cellId, hoveredCellId := hs.hoveredCellId
   , cellsAddr := hs.cellsAddr }, h3)

/-- `getState()` under reference semantics: `new Map(state.cells)`
allocates a fresh container with the same entries (hence the same record
addresses), and the snapshot object carries its address. -/
def heapGetState (hs : HStore) (h : Heap) : HStore × Heap :=
  let r := heapAllocMap h (heapMapEntries h hs.cellsAddr)
  ({ selectedCellId := hs.selectedCellId, hoveredCellId := hs.hoveredCellId
   , cellsAddr := r.2 }, r.1)

/-- The module-initial heap store: `cells: new Map()` allocated at address
0 on an otherwise empty heap. -/
def hInitialHeap : Heap :=
  { recs := fun _ => none, maps := fun a => if a = 0 then some [] else none, next := 1 }

/-- The module-initial store globals under reference semantics. -/
def hInitialStore : HStore :=
  { selectedCellId := none, hoveredCellId := none, cellsAddr := 0 }

/-! ## Concrete states for counterexamples and witnesses -/

/-- A store with cell `"s"` selected and recorded as `SELECTED`. -/
def c2Store : StoreState :=
  { selectedCellId := some "s"
  , hoveredCellId := none
  , cells := fun q =>
      if q = "s" then
        some { id := "s", state := CellState.SELECTED, ownerId := none
             , structures := [], createdAt := 0 }
      else none }

/-- A store whose previously selected cell `"p"` has the conflicting
stored state `OWNED`. -/
def c4State : StoreState :=
  { selectedCellId := some "p"
  , hoveredCellId := none
  , cells := fun q =>
      if q = "p" then
        some { id := "p", state := CellState.OWNED, ownerId := some "u"
             , structures := [], createdAt := 0 }
      else none }

/-- An H3 index model that returns a different cell id at the fine
resolution (12) than at the visible-grid resolution (4). -/
def resIdx : ℝ → ℝ → Nat → String :=
  fun _ _ res => if res = DEFAULT_RESOLUTION then "fineCell" else "coarseCell"

/-- A constant H3 index model used by witnesses. -/
def constIdx : ℝ → ℝ → Nat → String :=
  fun _ _ _ => "a"

/-- A concrete pointer intersection point used by witnesses. -/
def p0 : Vec3 := { x := 1, y := 0, z := 0 }

/-- The heap store after `selectCell("a")` from the module-initial state,
under reference semantics. -/
def c9Run : HStore × Heap := heapSelectCell hInitialStore hInitialHeap "a" 7

/-- The snapshot (and the heap after its allocation) returned by
`getState()` in that state. -/
def c9Snap : HStore × Heap := heapGetState c9Run.1 c9Run.2

/-- The address of the `"a"` record obtained through the snapshot's map. -/
def c9RecAddr : Nat := (heapMapGet c9Snap.2 c9Snap.1.cellsAddr "a").getD 0

/-- The heap after the caller mutates that snapshot-reachable record
object in place (`record.state = DEFAULT`). -/
def c9Mutated : Heap :=
  heapRecWrite c9Snap.2 c9RecAddr
    { ((c9Snap.2.recs c9RecAddr).getD (createCell "a" 7)) with state := CellState.DEFAULT }

/-! ## Basic lemmas about the store building blocks -/

theorem mapSet_self (m : CellMap) (k : String) (v : Cell) : mapSet m k v k = some v := by
  simp [mapSet]

theorem mapSet_other (m : CellMap) (k q : String) (v : Cell) (h : q ≠ k) :
    mapSet m k v q = m q := by
  simp [mapSet, h]

theorem setStateAt_other (m : CellMap) (k q : String) (s : CellState) (h : q ≠ k) :
    setStateAt m k s q = m q := by
  unfold setStateAt
  cases m k with
  | none => rfl
  | some c => exact mapSet_other m k q _ h

theorem setStateAt_present (m : CellMap) (k : String) (s : CellState)
    (h : (m k).isSome) :
    (setStateAt m k s k).map Cell.state = some s := by
  unfold setStateAt
  cases hm : m k with
  | none => rw [hm] at h; simp at h
  | some c => simp [mapSet_self]

theorem setStateAt_isSome (m : CellMap) (k q : String) (s : CellState) :
    (setStateAt m k s q).isSome = (m q).isSome := by
  by_cases h : q = k
  · subst h
    unfold setStateAt
    cases hm : m q with
    | none => simp [hm]
    | some c => simp [mapSet_self]
  · rw [setStateAt_other m k q s h]

theorem ensureCell_other (cells : CellMap) (cid q : String) (now : Nat) (h : q ≠ cid) :
    ensureCell cells cid now q = cells q := by
  unfold ensureCell
  by_cases hh : mapHas cells cid
  · simp [hh]
  · simp [hh, mapSet_other _ _ _ _ h]

theorem ensureCell_preserves (cells : CellMap) (cid q : String) (now : Nat)
    (hq : (cells q).isSome) : ensureCell cells cid now q = cells q := by
  by_cases he : q = cid
  · subst he
    unfold ensureCell
    have : mapHas cells q = true := hq
    simp [this]
  · exact ensureCell_other cells cid q now he

theorem ensureCell_isSome (cells : CellMap) (cid : String) (now : Nat) :
    (ensureCell cells cid now cid).isSome := by
  unfold ensureCell
  by_cases hh : mapHas cells cid = true
  · rw [if_pos hh]; exact hh
  · rw [if_neg hh]; simp [mapSet_self]

theorem demotePrevSelection_isSome (cells : CellMap) (sel : Option String) (q : String) :
    ((demotePrevSelection cells sel) q).isSome = (cells q).isSome := by
  unfold demotePrevSelection
  cases sel with
  | none => rfl
  | some prev =>
    by_cases hp : prev = ""
    · simp [hp]
    · simp [hp, setStateAt_isSome]

/-! ## Hover preserves SELECTED records -/

theorem clearPrevHover_selected (cells : CellMap) (hov : Option String) (sel : String)
    (hsel : (cells sel).map Cell.state = some CellState.SELECTED) :
    clearPrevHover cells hov sel = cells sel := by
  unfold clearPrevHover
  cases hov with
  | none => rfl
  | some prev =>
    by_cases hp : prev = ""
    · simp [hp]
    · simp only [hp, ne_eq, not_false_iff, if_true]
      cases hcp : cells prev with
      | none => rfl
      | some prevCell =>
        by_cases hh : prevCell.state = CellState.HOVERED
        · have hps : sel ≠ prev := by
            intro he
            rw [he, hcp] at hsel
            simp [hh] at hsel
          simp [hh, mapSet_other _ _ _ _ hps]
        · simp [hh]

theorem setNewHover_selected (cells : CellMap) (x : Option String) (now : Nat) (sel : String)
    (hsel : (cells sel).map Cell.state = some CellState.SELECTED) :
    setNewHover cells x now sel = cells sel := by
  have hexists : (cells sel).isSome := by
    cases h : cells sel with
    | none => rw [h] at hsel; simp at hsel
    | some c => simp
  unfold setNewHover
  cases x with
  | none => rfl
  | some cid =>
    by_cases hc : cid = ""
    · simp [hc]
    · simp only [hc, ne_eq, not_false_iff, if_true]
      have hens : ensureCell cells cid now sel = cells sel :=
        ensureCell_preserves cells cid sel now hexists
      cases hec : ensureCell cells cid now cid with
      | none => exact hens
      | some cell =>
        by_cases hcs : cell.state = CellState.SELECTED
        · simp [hcs, hens]
        · simp only [hcs, ne_eq, not_false_iff, if_true]
          by_cases hqs : sel = cid
          · exfalso
            rw [hqs, hec] at hens
            rw [hqs] at hsel
            rw [← hens] at hsel
            simp [hcs] at hsel
          · rw [mapSet_other _ _ _ _ hqs]
            exact hens

theorem setHover_keeps_selected_record (st : StoreState) (x : Option String) (now : Nat)
    (sel : String)
    (hsel : (st.cells sel).map Cell.state = some CellState.SELECTED) :
    ((applySetHoveredCell st x now).1.cells sel).map Cell.state = some CellState.SELECTED := by
  unfold applySetHoveredCell
  by_cases h0 : st.hoveredCellId = x
  · simp [h0, hsel]
  · simp only [h0, if_neg, if_false]
    have h1 : (clearPrevHover st.cells st.hoveredCellId sel).map Cell.state
        = some CellState.SELECTED := by
      rw [clearPrevHover_selected st.cells st.hoveredCellId sel hsel]; exact hsel
    show (setNewHover (clearPrevHover st.cells st.hoveredCellId) x now sel).map Cell.state
        = some CellState.SELECTED
    rw [setNewHover_selected _ x now sel h1]
    exact h1

/-- C2: selection overrides hover.  For every store state in which the
selected cell's record is `SELECTED`, `setHoveredCell(x)` (for any `x`,
including the selected cell itself or hovering away from it) leaves that
record `SELECTED`; and `getCellColor` for the selected id returns the
selected color `#00ff88` for every cells map and hover pointer, regardless
of the stored `state` field. -/
theorem C2_selection_overrides_hover (st : StoreState) (x : Option String) (now : Nat)
    (sel : String) (_hselid : st.selectedCellId = some sel)
    (hsel : (st.cells sel).map Cell.state = some CellState.SELECTED) :
    ((applySetHoveredCell st x now).1.cells sel).map Cell.state = some CellState.SELECTED
    ∧ ∀ (cells : CellMap) (hov : Option String),
        getCellColor sel cells (some sel) hov = "#00ff88" := by
  refine ⟨setHover_keeps_selected_record st x now sel hsel, ?_⟩
  intro cells hov
  simp [getCellColor]

/-- Witness for C2 at a concrete store with `"s"` selected, hovering `"h"`. -/
theorem C2_selection_overrides_hover_witness :
    ((applySetHoveredCell c2Store (some "h") 0).1.cells "s").map Cell.state
        = some CellState.SELECTED
    ∧ getCellColor "s" c2Store.cells (some "s") none = "#00ff88" :=
  ⟨(C2_selection_overrides_hover c2Store (some "h") 0 "s" rfl (by decide)).1,
   (C2_selection_overrides_hover c2Store (some "h") 0 "s" rfl (by decide)).2 c2Store.cells none⟩

/-! ## C3: hover idempotence -/

/-- C3 counterexample: from the module-initial state (where
`hoveredCellId` is already `null`), two consecutive `setHoveredCell(null)`
calls trigger zero subscriber notifications in total, not exactly one, so
the claim's "exactly one notification in total" fails for states whose
`hoveredCellId` already equals `x`. -/
theorem C3_counterexample :
    (applySetHoveredCell initialState none 0).2.1
        + (applySetHoveredCell (applySetHoveredCell initialState none 0).1 none 0).2.1 = 0
    ∧ ¬ ((applySetHoveredCell initialState none 0).2.1
        + (applySetHoveredCell (applySetHoveredCell initialState none 0).1 none 0).2.1 = 1) := by
  constructor <;> decide

/-- C3 (amended): if `hoveredCellId` already equals `x` then
`setHoveredCell(x)` returns early as a complete no-op (state unchanged,
zero notifications, `{success: true, cellId: x}` returned); the second of
two consecutive `setHoveredCell(x)` calls never notifies, so the pair
triggers exactly one notification when the initial `hoveredCellId`
differs from `x` (and zero otherwise). -/
theorem C3_hover_idempotent (st : StoreState) (x : Option String) (n1 n2 : Nat) :
    (st.hoveredCellId = x →
        applySetHoveredCell st x n1 = (st, 0, { success := true, cellId := x, cell := none }))
    ∧ (applySetHoveredCell (applySetHoveredCell st x n1).1 x n2).2.1 = 0
    ∧ (st.hoveredCellId ≠ x →
        (applySetHoveredCell st x n1).2.1
          + (applySetHoveredCell (applySetHoveredCell st x n1).1 x n2).2.1 = 1) := by
  have hafter : (applySetHoveredCell st x n1).1.hoveredCellId = x := by
    unfold applySetHoveredCell
    by_cases h : st.hoveredCellId = x
    · simp [h]
    · simp [h]
  have hnoop : ∀ (s : StoreState) (m : Nat), s.hoveredCellId = x →
      (applySetHoveredCell s x m).2.1 = 0 := by
    intro s m hs
    unfold applySetHoveredCell
    simp [hs]
  have hsecond : (applySetHoveredCell (applySetHoveredCell st x n1).1 x n2).2.1 = 0 :=
    hnoop _ n2 hafter
  refine ⟨?_, hsecond, ?_⟩
  · intro h
    unfold applySetHoveredCell
    simp [h]
  · intro h
    have hfirst : (applySetHoveredCell st x n1).2.1 = 1 := by
      unfold applySetHoveredCell
      simp [h]
    rw [hfirst, hsecond]

/-- Witness for C3 (amended): from the initial state, hovering `"a"` twice
notifies exactly once. -/
theorem C3_hover_idempotent_witness :
    (applySetHoveredCell initialState (some "a") 0).2.1
      + (applySetHoveredCell (applySetHoveredCell initialState (some "a") 0).1
          (some "a") 0).2.1 = 1 :=
  (C3_hover_idempotent initialState (some "a") 0 0).2.2 (by decide)

/-! ## C4: select postcondition -/

theorem applySelectCell_sets_selected (st : StoreState) (c : String) (now : Nat) :
    ((applySelectCell st c now).1.cells c).map Cell.state = some CellState.SELECTED := by
  show (setStateAt (demotePrevSelection (ensureCell st.cells c now) st.selectedCellId)
      c CellState.SELECTED c).map Cell.state = some CellState.SELECTED
  apply setStateAt_present
  rw [demotePrevSelection_isSome]
  exact ensureCell_isSome st.cells c now

theorem selectCell_demotes_prev (s : StoreState) (c prev : String) (m : Nat)
    (hps : s.selectedCellId = some prev) (hp : prev ≠ "") (hpc : prev ≠ c)
    (hex : (s.cells prev).isSome) :
    ((applySelectCell s c m).1.cells prev).map Cell.state = some CellState.DEFAULT := by
  show (setStateAt (demotePrevSelection (ensureCell s.cells c m) s.selectedCellId)
      c CellState.SELECTED prev).map Cell.state = some CellState.DEFAULT
  rw [setStateAt_other _ _ _ _ hpc, hps]
  show (demotePrevSelection (ensureCell s.cells c m) (some prev) prev).map Cell.state
      = some CellState.DEFAULT
  unfold demotePrevSelection
  simp only [hp, ne_eq, not_false_iff, if_true]
  apply setStateAt_present
  rw [ensureCell_other _ _ _ _ hpc]
  exact hex

/-- C4 counterexample: the previously selected cell `"p"` has the
conflicting stored state `OWNED`, yet `selectCell("b")` demotes it to
`DEFAULT` anyway — the demotion in the source is unconditional, not
"only if it still has no conflicting state". -/
theorem C4_counterexample :
    ((applySelectCell c4State "b" 0).1.cells "p").map Cell.state = some CellState.DEFAULT
    ∧ ((applySelectCell c4State "b" 0).1.cells "p").map Cell.state
        ≠ some CellState.OWNED := by
  constructor <;> decide

theorem isSome_of_state (o : Option Cell) (s : CellState)
    (h : o.map Cell.state = some s) : o.isSome := by
  cases o with
  | none => simp at h
  | some c => simp

/-- C4 (amended): for every store state and cell ids A ≠ B (H3 ids are
nonempty, hence `A ≠ ""`), `selectCell(A)` then `selectCell(B)` creates
records for A and B if absent and leaves A's record `DEFAULT`, B's record
`SELECTED`, and `selectedCellId = B`; each `selectCell` call notifies
subscribers exactly once; and the previously selected cell is demoted to
`DEFAULT` unconditionally whenever its record exists, regardless of its
stored state. -/
theorem C4_select_postcondition (st : StoreState) (A B : String) (n1 n2 : Nat)
    (hAB : A ≠ B) (hA : A ≠ "") :
    ((applySelectCell (applySelectCell st A n1).1 B n2).1.cells A).map Cell.state
        = some CellState.DEFAULT
    ∧ ((applySelectCell (applySelectCell st A n1).1 B n2).1.cells B).map Cell.state
        = some CellState.SELECTED
    ∧ (applySelectCell (applySelectCell st A n1).1 B n2).1.selectedCellId = some B
    ∧ (∀ (s : StoreState) (c : String) (m : Nat), (applySelectCell s c m).2.1 = 1)
    ∧ (∀ (s : StoreState) (c prev : String) (m : Nat),
        s.selectedCellId = some prev → prev ≠ "" → prev ≠ c → (s.cells prev).isSome →
        ((applySelectCell s c m).1.cells prev).map Cell.state = some CellState.DEFAULT) := by
  refine ⟨?_, applySelectCell_sets_selected _ B n2, rfl, fun _ _ _ => rfl,
    fun s c prev m h1 h2 h3 h4 => selectCell_demotes_prev s c prev m h1 h2 h3 h4⟩
  exact selectCell_demotes_prev (applySelectCell st A n1).1 B A n2 rfl hA hAB
    (isSome_of_state _ _ (applySelectCell_sets_selected st A n1))

/-- Witness for C4 (amended) at the initial state with A = "a", B = "b". -/
theorem C4_select_postcondition_witness :
    ((applySelectCell (applySelectCell initialState "a" 0).1 "b" 0).1.cells "a").map
        Cell.state = some CellState.DEFAULT :=
  (C4_select_postcondition initialState "a" "b" 0 0 (by decide) (by decide)).1

/-! ## C10: reachable-state invariant -/

theorem applySetHoveredCell_keeps_selectedCellId (st : StoreState) (x : Option String)
    (now : Nat) : (applySetHoveredCell st x now).1.selectedCellId = st.selectedCellId := by
  unfold applySetHoveredCell
  by_cases h : st.hoveredCellId = x
  · simp [h]
  · simp [h]

theorem reachable_selected_invariant (st : StoreState) (h : Reachable st) :
    ∀ c, st.selectedCellId = some c →
      (st.cells c).map Cell.state = some CellState.SELECTED := by
  induction h with
  | init => intro c hc; cases hc
  | select st' cellId now _ _ =>
    intro c hc
    have : cellId = c := by
      have : (applySelectCell st' cellId now).1.selectedCellId = some cellId := rfl
      rw [this] at hc
      exact Option.some.inj hc
    subst this
    exact applySelectCell_sets_selected st' cellId now
  | clear st' _ _ =>
    intro c hc
    have : (applyClearSelection st').1.selectedCellId = none := rfl
    rw [this] at hc
    cases hc
  | hover st' cellId now _ ih =>
    intro c hc
    rw [applySetHoveredCell_keeps_selectedCellId st' cellId now] at hc
    exact setHover_keeps_selected_record st' cellId now c (ih c hc)

/-- C10: in every state reachable from the initial store by `selectCell`,
`clearSelection` and `setHoveredCell` calls, a non-null `selectedCellId`
has a record in the cells map whose state is `SELECTED`; and each of the
three operations returns `{success: true}` for every input (they are
total: no input, even an id with no prior record, raises an error). -/
theorem C10_store_invariant (st : StoreState) (h : Reachable st) :
    (∀ c, st.selectedCellId = some c →
        (st.cells c).map Cell.state = some CellState.SELECTED)
    ∧ (∀ (cellId : String) (now : Nat),
        (applySelectCell st cellId now).2.2.success = true)
    ∧ (applyClearSelection st).2.2.success = true
    ∧ (∀ (cellId : Option String) (now : Nat),
        (applySetHoveredCell st cellId now).2.2.success = true) := by
  refine ⟨reachable_selected_invariant st h, fun _ _ => rfl, rfl, ?_⟩
  intro cellId now
  unfold applySetHoveredCell
  by_cases hx : st.hoveredCellId = cellId
  · simp [hx]
  · simp [hx]

/-- Witness for C10 at the initial (trivially reachable) state. -/
theorem C10_store_invariant_witness :
    (applySelectCell initialState "a" 0).2.2.success = true :=
  (C10_store_invariant initialState Reachable.init).2.1 "a" 0

/-! ## C9: snapshot isolation -/

/-- C9 counterexample: after `selectCell("a")`, the record object for
`"a"` reachable from the `getState()` snapshot is the very object the
store holds — mutating it in place (setting its `state` to `DEFAULT`)
changes what the store's internal state reports for `"a"` from `SELECTED`
to `DEFAULT`.  The snapshot therefore aliases internal mutable state. -/
theorem C9_counterexample :
    (storeCellAt c9Run.1 c9Snap.2 "a").map Cell.state = some CellState.SELECTED
    ∧ (storeCellAt c9Run.1 c9Mutated "a").map Cell.state = some CellState.DEFAULT := by
  constructor <;> decide

/-- C9 (amended): `getState()` returns a snapshot whose `cells` mapping is
a freshly allocated `Map` container, so adding or removing entries of the
snapshot's mapping (`set` or `delete` on it, for any key and value) never
changes the store's internal state; the cell record objects inside it,
however, are shared by reference with the store, so mutating such a record
object does change the store's state. -/
theorem C9_snapshot_map_isolated (hs : HStore) (h : Heap) (hwf : hs.cellsAddr < h.next)
    (k : String) (a : Nat) (q : String) :
    storeCellAt hs (heapMapSet (heapGetState hs h).2 (heapGetState hs h).1.cellsAddr k a) q
        = storeCellAt hs (heapGetState hs h).2 q
    ∧ storeCellAt hs (heapMapDelete (heapGetState hs h).2 (heapGetState hs h).1.cellsAddr k) q
        = storeCellAt hs (heapGetState hs h).2 q := by
  have hne : hs.cellsAddr ≠ h.next := Nat.ne_of_lt hwf
  constructor <;>
    simp [storeCellAt, heapMapGet, heapMapEntries, heapGetState, heapAllocMap,
      heapMapSet, heapMapDelete, hne]

/-- Witness for C9 (amended): a caller `set` on the snapshot's map from
the initial state leaves the store's view of `"a"` unchanged. -/
theorem C9_snapshot_map_isolated_witness :
    storeCellAt hInitialStore
        (heapMapSet (heapGetState hInitialStore hInitialHeap).2
          (heapGetState hInitialStore hInitialHeap).1.cellsAddr "b" 5) "a"
      = storeCellAt hInitialStore (heapGetState hInitialStore hInitialHeap).2 "a" :=
  (C9_snapshot_map_isolated hInitialStore hInitialHeap (by decide) "b" 5 "a").1

/-! ## C8: pointer leave -/

theorem setHoveredCell_none_clears (st : StoreState) (now : Nat) :
    (applySetHoveredCell st none now).1.hoveredCellId = none := by
  unfold applySetHoveredCell
  by_cases h : st.hoveredCellId = none
  · simp [h]
  · simp [h]

/-- C8: when a cell is currently hovered (`currentHoveredCellId = some c`,
with `c` a cell id and hence nonempty), `onPointerLeave` emits exactly one
`CELL_UNHOVERED` event carrying the previous id, clears the memo, and
leaves the store's `hoveredCellId` equal to `null`; when no cell is
hovered it emits no event and changes nothing. -/
theorem C8_pointer_leave (ist : InputState) (st : StoreState) (now : Nat) :
    (∀ c, ist.currentHoveredCellId = some c → c ≠ "" →
        onPointerLeave ist st now
            = ({ currentHoveredCellId := none },
               (applySetHoveredCell st none now).1,
               [cellUnhovered (some c) now])
          ∧ (onPointerLeave ist st now).2.1.hoveredCellId = none)
    ∧ (ist.currentHoveredCellId = none → onPointerLeave ist st now = (ist, st, [])) := by
  constructor
  · intro c hc hne
    have hleave : onPointerLeave ist st now
        = ({ currentHoveredCellId := none },
           (applySetHoveredCell st none now).1,
           [cellUnhovered (some c) now]) := by
      unfold onPointerLeave
      rw [hc]
      simp only [hne, ne_eq, not_false_iff, if_true]
      rfl
    refine ⟨hleave, ?_⟩
    rw [hleave]
    exact setHoveredCell_none_clears st now
  · intro hc
    unfold onPointerLeave
    rw [hc]

/-- Witness for C8 with cell `"a"` hovered over the initial store. -/
theorem C8_pointer_leave_witness :
    onPointerLeave { currentHoveredCellId := some "a" } initialState 0
      = ({ currentHoveredCellId := none },
         (applySetHoveredCell initialState none 0).1,
         [cellUnhovered (some "a") 0]) :=
  ((C8_pointer_leave { currentHoveredCellId := some "a" } initialState 0).1 "a" rfl
    (by decide)).1

/-! ## C6: visible-region ring count -/

/-- C6: the ring count is `ceil((90° + 8°) / max(step, 1e-6))` clamped into
`[MIN_GRID_RINGS, MAX_GRID_RINGS]`.  For a step estimate of 6° the
pre-clamp value is `ceil(98/6) = 17` and the clamped result is 17; and for
every step estimate (including ~0, absorbed by the `1e-6` floor before
dividing) the result lies within the configured clamps, so the ring count
is never unbounded. -/
theorem C6_ring_count :
    ⌈(Real.pi / 2 + degToRad 8) / max (degToRad 6) 1e-6⌉ = (17 : ℤ)
    ∧ hexGridRings (degToRad 6) = 17
    ∧ ∀ s : ℝ, MIN_GRID_RINGS ≤ hexGridRings s ∧ hexGridRings s ≤ MAX_GRID_RINGS := by
  have hpi3 : (3 : ℝ) < Real.pi := Real.pi_gt_three
  have hd6 : (1e-6 : ℝ) ≤ degToRad 6 := by
    unfold degToRad
    nlinarith
  have hmax : max (degToRad 6) (1e-6 : ℝ) = degToRad 6 := max_eq_left hd6
  have hpi0 : Real.pi ≠ 0 := Real.pi_ne_zero
  have hdiv : (Real.pi / 2 + degToRad 8) / degToRad 6 = 49 / 3 := by
    unfold degToRad
    rw [div_eq_iff (by nlinarith : (6 : ℝ) * Real.pi / 180 ≠ 0)]
    ring
  have hceil : ⌈(Real.pi / 2 + degToRad 8) / max (degToRad 6) 1e-6⌉ = (17 : ℤ) := by
    rw [hmax, hdiv, Int.ceil_eq_iff]
    norm_num
  refine ⟨hceil, ?_, ?_⟩
  · unfold hexGridRings
    rw [hceil]
    decide
  · intro s
    unfold hexGridRings clampInt MIN_GRID_RINGS MAX_GRID_RINGS
    exact ⟨le_max_left _ _, max_le (by norm_num) (min_le_left _ _)⟩

/-! ## C5: geometry round trip -/

theorem latLng_norm (lat lng R : ℝ) (hR : 0 < R) :
    vecLength (latLngToVector3 lat lng R) = R := by
  have hs := Real.sin_sq_add_cos_sq ((90 - lat) * (Real.pi / 180))
  have ht := Real.sin_sq_add_cos_sq ((lng + 180) * (Real.pi / 180))
  have hsum : (latLngToVector3 lat lng R).x * (latLngToVector3 lat lng R).x
      + (latLngToVector3 lat lng R).y * (latLngToVector3 lat lng R).y
      + (latLngToVector3 lat lng R).z * (latLngToVector3 lat lng R).z = R ^ 2 := by
    simp only [latLngToVector3]
    linear_combination (R ^ 2 * Real.sin ((90 - lat) * (Real.pi / 180)) ^ 2) * ht
      + R ^ 2 * hs
  unfold vecLength
  rw [hsum, Real.sqrt_sq hR.le]

theorem vecNormalize_latLng (lat lng R : ℝ) (hR : 0 < R) :
    vecNormalize (latLngToVector3 lat lng R) =
      { x := -(Real.sin ((90 - lat) * (Real.pi / 180)) * Real.cos ((lng + 180) * (Real.pi / 180)))
      , y := Real.cos ((90 - lat) * (Real.pi / 180))
      , z := Real.sin ((90 - lat) * (Real.pi / 180)) * Real.sin ((lng + 180) * (Real.pi / 180)) } := by
  unfold vecNormalize
  rw [latLng_norm lat lng R hR, if_neg hR.ne']
  simp only [latLngToVector3, Vec3.mk.injEq]
  refine ⟨?_, ?_, ?_⟩ <;> field_simp <;> ring

theorem atan2_sin_cos (s θ : ℝ) (hs : 0 < s) (hmem : θ ∈ Set.Ioc (-Real.pi) Real.pi) :
    atan2 (s * Real.sin θ) (s * Real.cos θ) = θ := by
  unfold atan2
  have hre : ((s * Real.cos θ : ℝ) : ℂ) + ((s * Real.sin θ : ℝ) : ℂ) * Complex.I
      = (s : ℂ) * (Complex.cos θ + Complex.sin θ * Complex.I) := by
    rw [Complex.ofReal_mul, Complex.ofReal_mul, Complex.ofReal_cos, Complex.ofReal_sin]
    ring
  rw [hre, Complex.arg_mul_cos_add_sin_mul_I hs hmem]

theorem roundtrip (lat lng R : ℝ) (h1 : -90 < lat) (h2 : lat < 90)
    (h3 : -180 ≤ lng) (h4 : lng < 180) (hR : 0 < R) :
    vector3ToLatLng (latLngToVector3 lat lng R) R = (lat, lng) := by
  have hpi : 0 < Real.pi := Real.pi_pos
  have hpi0 : Real.pi ≠ 0 := Real.pi_ne_zero
  have hphi0 : 0 < (90 - lat) * (Real.pi / 180) := by nlinarith
  have hphipi : (90 - lat) * (Real.pi / 180) < Real.pi := by nlinarith
  have hsphi : 0 < Real.sin ((90 - lat) * (Real.pi / 180)) :=
    Real.sin_pos_of_pos_of_lt_pi hphi0 hphipi
  unfold vector3ToLatLng
  rw [vecNormalize_latLng lat lng R hR]
  dsimp only
  have hlat : 90 - Real.arccos (Real.cos ((90 - lat) * (Real.pi / 180))) * (180 / Real.pi)
      = lat := by
    rw [Real.arccos_cos hphi0.le hphipi.le]
    field_simp
  have hatan : atan2
      (Real.sin ((90 - lat) * (Real.pi / 180)) * Real.sin ((lng + 180) * (Real.pi / 180)))
      (- -(Real.sin ((90 - lat) * (Real.pi / 180)) * Real.cos ((lng + 180) * (Real.pi / 180))))
        * (180 / Real.pi) - 180
      = lng - (if 0 < lng then (360 : ℝ) else 0) := by
    rw [neg_neg]
    by_cases hpos : 0 < lng
    · have hsin : Real.sin ((lng + 180) * (Real.pi / 180))
          = Real.sin ((lng + 180) * (Real.pi / 180) - 2 * Real.pi) :=
        (Real.sin_sub_two_pi _).symm
      have hcos : Real.cos ((lng + 180) * (Real.pi / 180))
          = Real.cos ((lng + 180) * (Real.pi / 180) - 2 * Real.pi) :=
        (Real.cos_sub_two_pi _).symm
      rw [hsin, hcos, atan2_sin_cos _ _ hsphi ⟨by nlinarith, by nlinarith⟩]
      rw [if_pos hpos]
      field_simp
      ring
    · rw [atan2_sin_cos _ _ hsphi ⟨by nlinarith, by nlinarith⟩]
      rw [if_neg hpos]
      field_simp
  rw [hlat, hatan]
  by_cases hpos : 0 < lng
  · rw [if_pos hpos, if_pos (by linarith : lng - 360 < -180)]
    norm_num
  · rw [if_neg hpos, if_neg (by norm_num; linarith : ¬lng - 0 < -180)]
    norm_num

theorem vector3ToLatLng_lng_range (p : Vec3) (r : ℝ) :
    -180 ≤ (vector3ToLatLng p r).2 ∧ (vector3ToLatLng p r).2 < 180 := by
  unfold vector3ToLatLng
  dsimp only
  have hpi : 0 < Real.pi := Real.pi_pos
  have h1 : -Real.pi < atan2 (vecNormalize p).z (-(vecNormalize p).x) :=
    Complex.neg_pi_lt_arg _
  have h2 : atan2 (vecNormalize p).z (-(vecNormalize p).x) ≤ Real.pi :=
    Complex.arg_le_pi _
  have hd : 0 < 180 / Real.pi := by positivity
  have hub : atan2 (vecNormalize p).z (-(vecNormalize p).x) * (180 / Real.pi) ≤ 180 := by
    have := mul_le_mul_of_nonneg_right h2 hd.le
    have heq : Real.pi * (180 / Real.pi) = 180 := by field_simp
    linarith
  have hlb : -180 < atan2 (vecNormalize p).z (-(vecNormalize p).x) * (180 / Real.pi) := by
    have := mul_lt_mul_of_pos_right h1 hd
    have heq : -Real.pi * (180 / Real.pi) = -180 := by
      field_simp
      ring
    linarith
  by_cases hc : atan2 (vecNormalize p).z (-(vecNormalize p).x) * (180 / Real.pi) - 180 < -180
  · rw [if_pos hc]
    constructor <;> linarith
  · rw [if_neg hc]
    push_neg at hc
    constructor <;> linarith

/-- C5: for every lat ∈ (-90, 90), lng ∈ [-180, 180) and radius R > 0, the
geometry round trip `vector3ToLatLng(latLngToVector3(lat, lng, R), R)`
returns exactly `(lat, lng)` over the reals (hence within the 1e-6
tolerance), and for every input point and radius the longitude returned by
`vector3ToLatLng` lies in `[-180, 180)`. -/
theorem C5_geometry_roundtrip (lat lng R : ℝ) (h1 : -90 < lat) (h2 : lat < 90)
    (h3 : -180 ≤ lng) (h4 : lng < 180) (hR : 0 < R) :
    (vector3ToLatLng (latLngToVector3 lat lng R) R).1 = lat
    ∧ (vector3ToLatLng (latLngToVector3 lat lng R) R).2 = lng
    ∧ |(vector3ToLatLng (latLngToVector3 lat lng R) R).1 - lat| ≤ 1e-6
    ∧ |(vector3ToLatLng (latLngToVector3 lat lng R) R).2 - lng| ≤ 1e-6
    ∧ ∀ (p : Vec3) (r : ℝ),
        -180 ≤ (vector3ToLatLng p r).2 ∧ (vector3ToLatLng p r).2 < 180 := by
  have h := roundtrip lat lng R h1 h2 h3 h4 hR
  have hfst : (vector3ToLatLng (latLngToVector3 lat lng R) R).1 = lat := by rw [h]
  have hsnd : (vector3ToLatLng (latLngToVector3 lat lng R) R).2 = lng := by rw [h]
  refine ⟨hfst, hsnd, ?_, ?_, vector3ToLatLng_lng_range⟩
  · rw [hfst]
    norm_num
  · rw [hsnd]
    norm_num

/-- Witness for C5 at lat = 10, lng = 20, R = 1. -/
theorem C5_geometry_roundtrip_witness :
    (vector3ToLatLng (latLngToVector3 10 20 1) 1).1 = 10
    ∧ (vector3ToLatLng (latLngToVector3 10 20 1) 1).2 = 20 :=
  ⟨(C5_geometry_roundtrip 10 20 1 (by norm_num) (by norm_num) (by norm_num) (by norm_num)
      (by norm_num)).1,
   (C5_geometry_roundtrip 10 20 1 (by norm_num) (by norm_num) (by norm_num) (by norm_num)
      (by norm_num)).2.1⟩

/-! ## C1: end-to-end selection -/

/-- C1 counterexample: for an index whose cell ids differ between the fine
resolution (12) and the visible-grid resolution (4), the pointer-down
pipeline at the 3D point for (10°, 20°) selects the id resolved at the
visible-grid resolution, not the id resolved at the fine resolution — the
picking pipeline does not use the fine resolution. -/
theorem C1_counterexample :
    (onPointerDown resIdx 1 (latLngToVector3 10 20 1)
        { currentHoveredCellId := none } initialState 0).2.1.selectedCellId
      = some "coarseCell"
    ∧ resIdx 10 20 DEFAULT_RESOLUTION = "fineCell"
    ∧ (onPointerDown resIdx 1 (latLngToVector3 10 20 1)
        { currentHoveredCellId := none } initialState 0).2.1.selectedCellId
      ≠ some (resIdx 10 20 DEFAULT_RESOLUTION) := by
  refine ⟨rfl, rfl, ?_⟩
  decide

/-- C1 (amended): for every index function, radius R > 0 and store state,
a pointer-down whose 3D intersection point resolves to geographic
coordinates (10°, 20°) resolves at the visible-grid (coarse) resolution to
the cell id `C = idx(10, 20, VISIBLE_GRID_RESOLUTION)` (H3 ids are
nonempty, hence `C ≠ ""`); the select path leaves
`getState().selectedCellId = C` and emits exactly one `CELL_SELECTED`
event whose payload `cellId = C`. -/
theorem C1_end_to_end_select (idx : ℝ → ℝ → Nat → String) (R : ℝ) (hR : 0 < R)
    (ist : InputState) (st : StoreState) (now : Nat)
    (hC : idx 10 20 VISIBLE_GRID_RESOLUTION ≠ "") :
    onPointerDown idx R (latLngToVector3 10 20 R) ist st now
      = (ist,
         (applySelectCell st (idx 10 20 VISIBLE_GRID_RESOLUTION) now).1,
         [cellSelected (idx 10 20 VISIBLE_GRID_RESOLUTION) now])
    ∧ (onPointerDown idx R (latLngToVector3 10 20 R) ist st now).2.1.selectedCellId
      = some (idx 10 20 VISIBLE_GRID_RESOLUTION) := by
  have hq : vector3ToLatLng (latLngToVector3 10 20 R) R = (10, 20) :=
    roundtrip 10 20 R (by norm_num) (by norm_num) (by norm_num) (by norm_num) hR
  have hcid : getCellIdFromPoint idx R (latLngToVector3 10 20 R)
      = idx 10 20 VISIBLE_GRID_RESOLUTION := by
    unfold getCellIdFromPoint
    rw [hq]
  have hpa : handlePointerAction "select" (some (idx 10 20 VISIBLE_GRID_RESOLUTION))
      none st now
      = ((applySelectCell st (idx 10 20 VISIBLE_GRID_RESOLUTION) now).1,
         [cellSelected (idx 10 20 VISIBLE_GRID_RESOLUTION) now]) := by
    simp only [handlePointerAction]
    rw [if_neg hC, if_pos trivial]
    rfl
  have hdown : onPointerDown idx R (latLngToVector3 10 20 R) ist st now
      = (ist,
         (applySelectCell st (idx 10 20 VISIBLE_GRID_RESOLUTION) now).1,
         [cellSelected (idx 10 20 VISIBLE_GRID_RESOLUTION) now]) := by
    unfold onPointerDown
    rw [hcid]
    rw [if_pos hC]
    rw [hpa]
  refine ⟨hdown, ?_⟩
  rw [hdown]
  rfl

/-- Witness for C1 (amended) with a constant index over the initial store. -/
theorem C1_end_to_end_select_witness :
    (onPointerDown constIdx 1 (latLngToVector3 10 20 1)
        { currentHoveredCellId := none } initialState 0).2.1.selectedCellId
      = some (constIdx 10 20 VISIBLE_GRID_RESOLUTION) :=
  (C1_end_to_end_select constIdx 1 (by norm_num) { currentHoveredCellId := none }
    initialState 0 (by decide)).2

/-! ## C7: pointer-move de-duplication and event order -/

/-- C7: for every pointer-move, when the resolved cell id equals the hover
memo the handler emits no events and changes nothing; when it differs it
emits `CELL_UNHOVERED` for the previous id (when one exists) and then
`CELL_HOVERED` for the new id (when one exists), updates the memo to the
new id, and calls the hover API (`setHoveredCell(null)` for the exit, then
`setHoveredCell(newId)` for the enter).  Cell ids are H3 ids, hence
nonempty. -/
theorem C7_pointer_move (idx : ℝ → ℝ → Nat → String) (R : ℝ) (point : Vec3)
    (ist : InputState) (st : StoreState) (now : Nat) :
    (ist.currentHoveredCellId = some (getCellIdFromPoint idx R point) →
        onPointerMove idx R point ist st now = (ist, st, []))
    ∧ (ist.currentHoveredCellId = none → getCellIdFromPoint idx R point ≠ "" →
        onPointerMove idx R point ist st now
          = ({ currentHoveredCellId := some (getCellIdFromPoint idx R point) },
             (applySetHoveredCell st (some (getCellIdFromPoint idx R point)) now).1,
             [cellHovered (getCellIdFromPoint idx R point) now]))
    ∧ (∀ prev, ist.currentHoveredCellId = some prev →
        prev ≠ getCellIdFromPoint idx R point → prev ≠ "" →
        getCellIdFromPoint idx R point ≠ "" →
        onPointerMove idx R point ist st now
          = ({ currentHoveredCellId := some (getCellIdFromPoint idx R point) },
             (applySetHoveredCell (applySetHoveredCell st none now).1
               (some (getCellIdFromPoint idx R point)) now).1,
             [cellUnhovered (some prev) now,
              cellHovered (getCellIdFromPoint idx R point) now])) := by
  refine ⟨?_, ?_, ?_⟩
  · intro h
    simp [onPointerMove, h]
  · intro h hcid
    simp [onPointerMove, h, hcid, handlePointerAction, handleCellHoverEnter]
  · intro prev h hne hprev hcid
    have hne' : ¬(getCellIdFromPoint idx R point = prev) := fun he => hne he.symm
    simp [onPointerMove, h, hne', hprev, hcid, handlePointerAction,
      handleCellHoverEnter, handleCellHoverExit]

/-- Witness for C7: with no cell hovered, a move resolving to `"a"` emits
one `CELL_HOVERED` event and updates memo and store. -/
theorem C7_pointer_move_witness :
    onPointerMove constIdx 1 p0 { currentHoveredCellId := none } initialState 0
      = ({ currentHoveredCellId := some (getCellIdFromPoint constIdx 1 p0) },
         (applySetHoveredCell initialState (some (getCellIdFromPoint constIdx 1 p0)) 0).1,
         [cellHovered (getCellIdFromPoint constIdx 1 p0) 0]) :=
  (C7_pointer_move constIdx 1 p0 { currentHoveredCellId := none } initialState 0).2.1
    rfl (by decide)

end LandGrab
